import Mathlib

/-!
Verification development for SharkGuard.

Embedded components:
* the heuristic rule layer and the Analyze flow of `app.py`;
* `fetch_transactions` from `utils/etherscan.py`;
* the feature extractor and the anomaly-model wrapper of `sharkguard/core.py`
  (that file is not part of the sources at hand; those definitions are
  modelled from the spec and say so in their doc comments).

Numeric values carried by feature mappings are modelled as elements of a
linear ordered field (instantiated at ℚ for concrete evaluation and at ℝ
for the extractor, whose entropy feature is transcendental).
-/

namespace SharkGuard

/-- A feature mapping as `app.py` consumes it: a Python dict over the fixed
schema whose keys may individually be absent.  `none` models a missing key;
the code's `feat.get key default` is `Option.getD`. -/
structure FeatureVector (α : Type) where
  tx_count : Option α
  tx_freq_per_day : Option α
  repeated_ratio : Option α
  hour_entropy : Option α

deriving instance DecidableEq for FeatureVector

/-- A fully-populated feature mapping with the given values. -/
def FeatureVector.ofVals {α : Type} (a b c d : α) : FeatureVector α :=
  ⟨some a, some b, some c, some d⟩

/-- The heuristic signals block of `app.py` (lines 179-191): `expl` starts
empty, each of the four threshold rules appends its flag in turn, and if no
rule fired a single "no flags" entry is produced. -/
def heuristicSignals {α : Type} [LinearOrderedField α]
    (feat : FeatureVector α) : List String :=
  let expl : List String := []
  let expl := if feat.tx_count.getD 0 < 3 then
    expl ++ ["Very few transactions — new or dormant account"] else expl
  let expl := if feat.tx_freq_per_day.getD 0 > 50 then
    expl ++ ["Extremely high transaction frequency — bot-like behavior"] else expl
  let expl := if feat.repeated_ratio.getD 0 > 3 / 5 then
    expl ++ ["High repeated_ratio — interacting with the same counterparty often"] else expl
  let expl := if feat.hour_entropy.getD 10 < 1 then
    expl ++ ["Low hour entropy — very regular timing"] else expl
  if expl = [] then ["No strong heuristic flags detected ✅"] else expl

/-- The four flag texts exactly as the table in the spec (section 4.4) quotes
them, in the table's order.  Used only to compare the spec's wording with the
flags the code emits. -/
def specTableFlags : List String :=
  ["very few transactions — new/dormant account",
   "extremely high frequency — bot-like",
   "high repeated-counterparty ratio",
   "low hour entropy — regular timing"]

/-- The per-rule flags that fire on a feature mapping: one singleton per rule
of the documented table, concatenated in the table's order, with the flag
texts the code emits. -/
def firedFlags {α : Type} [LinearOrderedField α]
    (feat : FeatureVector α) : List String :=
  (if feat.tx_count.getD 0 < 3 then
    ["Very few transactions — new or dormant account"] else []) ++
  (if feat.tx_freq_per_day.getD 0 > 50 then
    ["Extremely high transaction frequency — bot-like behavior"] else []) ++
  (if feat.repeated_ratio.getD 0 > 3 / 5 then
    ["High repeated_ratio — interacting with the same counterparty often"] else []) ++
  (if feat.hour_entropy.getD 10 < 1 then
    ["Low hour entropy — very regular timing"] else [])

/-! ## The Etherscan fetch collaborator (`utils/etherscan.py`)

`fetch_transactions` performs `requests.get`, `raise_for_status`, `r.json()`
and two `dict.get` look-ups inside one `try`, and the bare `except` returns
`[]`.  The behaviour of the HTTP layer is modelled as a value of
`HttpBehavior`: either the request itself raised, or it produced a final
response with a status code and a body that parses to JSON (a JSON object
with optional `status` and `result` fields, some other JSON value, or no
valid JSON at all).  Raw transaction records are opaque to this function, so
they are a type parameter. -/

/-- A parsed JSON response body: an object with the two fields the code reads
(either may be absent), or a JSON value that is not an object (on which
`data.get` raises `AttributeError`). -/
inductive JsonBody (τ : Type) where
  | obj (status : Option String) (result : Option (List τ))
  | nonObj

deriving instance DecidableEq for JsonBody

/-- One behaviour of the HTTP layer for a single call: `requests.get` (or a
redirect loop) raised, or it returned a final response with `statusCode` and
a body; `none` for the body means `r.json()` raises (no valid JSON). -/
inductive HttpBehavior (τ : Type) where
  | netError
  | response (statusCode : ℕ) (body : Option (JsonBody τ))

deriving instance DecidableEq for HttpBehavior

/-- The body of the `try` block of `fetch_transactions`: each Python
statement that can raise becomes an `Except.error`.  `raise_for_status`
raises exactly for status codes in [400, 600); `data.get ("status")` compares
against the string `"1"`; `data.get ("result", [])` defaults to `[]`. -/
def fetchAttempt {τ : Type} (h : HttpBehavior τ) : Except String (List τ) :=
  match h with
  | .netError => .error "requests.get raised"
  | .response code body =>
    if 400 ≤ code ∧ code < 600 then .error "raise_for_status: HTTPError"
    else match body with
      | none => .error "r.json raised: no valid JSON"
      | some .nonObj => .error "data.get raised: AttributeError"
      | some (.obj status result) =>
        if status = some "1" then .ok (result.getD []) else .ok []

/-- `fetch_transactions` (`utils/etherscan.py` lines 16-39): the `try` body,
with the catch-all `except` clause turning every raised exception into the
return value `[]`.  The function is total: it never propagates an exception
to its caller. -/
def fetch_transactions {τ : Type} (h : HttpBehavior τ) : List τ :=
  match fetchAttempt h with
  | .ok txs => txs
  | .error _ => []

/-- A status code outside the 2xx range. -/
def non2xx (code : ℕ) : Prop := code < 200 ∨ 300 ≤ code

/-- The failure behaviours `fetch_transactions` maps to `[]`: a raising
request, an HTTP error status (4xx/5xx, the codes `raise_for_status` raises
on), a body that is not valid JSON, a JSON body that is not an object, or an
API-level error (`status` field absent or not the string `"1"`, which covers
auth and rate-limit errors). -/
inductive FetchFailure {τ : Type} : HttpBehavior τ → Prop where
  | net : FetchFailure .netError
  | httpError (code : ℕ) (body : Option (JsonBody τ)) (h4 : 400 ≤ code)
      (h6 : code < 600) : FetchFailure (.response code body)
  | badJson (code : ℕ) : FetchFailure (.response code none)
  | notObj (code : ℕ) : FetchFailure (.response code (some .nonObj))
  | apiError (code : ℕ) (status : Option String) (result : Option (List τ))
      (hs : status ≠ some "1") :
      FetchFailure (.response code (some (.obj status result)))

/-! ## The anomaly-model wrapper (`sharkguard/core.py`, absent from the
sources at hand; modelled from the spec, sections 3, 4.3 and 6) -/

/-- Modelled from the spec: the fitted state of `SharkGuardModel` —
estimator parameters together with the fitted preprocessing transform
(per-feature shift and scale) and the raw-score calibration range fixed at
fit time (section 4.3: min-max against the training distribution). -/
structure FittedParams (α : Type) where
  weights : List α
  shift : List α
  scale : List α
  rawLo : α
  rawHi : α

deriving instance DecidableEq for FittedParams

/-- Modelled from the spec: `SharkGuardModel` of `sharkguard/core.py`, which
is not among the sources at hand.  It owns an optionally-fitted estimator;
only `fit`/`restore` replace it wholesale. -/
structure SharkGuardModel (α : Type) where
  fitted : Option (FittedParams α)

deriving instance DecidableEq for SharkGuardModel

/-- The ScoreResult of the spec (section 3): normalized score, discrete
label, raw model output. -/
structure ScoreResult (α : Type) where
  score : α
  label : String
  raw : α

deriving instance DecidableEq for ScoreResult

/-- Dot product of two parameter lists. -/
def dotProd {α : Type} [LinearOrderedField α] (xs ys : List α) : α :=
  (List.zipWith (fun a b => a * b) xs ys).sum

/-- Clamp a value into [0,1]. -/
def clampUnit {α : Type} [LinearOrderedField α] (x : α) : α :=
  max 0 (min 1 x)

/-- Modelled from the spec: `predict_score` of `SharkGuardModel`
(`sharkguard/core.py`, absent from the sources at hand).  Scoring before
`fit`/`restore` and a schema mismatch fail fast (spec sections 4.3 and 7(c));
otherwise the fitted preprocessing transform is applied, a raw score is
produced, and it is mapped to a normalized [0,1] suspicion score by the
min-max calibration fixed at fit time, then thresholded into a label. -/
def predict_score {α : Type} [LinearOrderedField α] (m : SharkGuardModel α)
    (feat : FeatureVector α) : Except String (ScoreResult α) :=
  match m.fitted with
  | none => .error "score before fit or restore"
  | some p =>
    match feat.tx_count, feat.tx_freq_per_day, feat.repeated_ratio,
        feat.hour_entropy with
    | some a, some b, some c, some d =>
      let scaled := List.zipWith (fun x sv => (x - sv.1) / sv.2)
        [a, b, c, d] (p.shift.zip p.scale)
      let raw := dotProd p.weights scaled
      let score := clampUnit ((raw - p.rawLo) / (p.rawHi - p.rawLo))
      .ok ⟨score, if 1 / 2 ≤ score then "suspicious" else "normal", raw⟩
    | _, _, _, _ => .error "feature schema mismatch"

/-- The format version embedded in a persisted model artifact. -/
def MODEL_FORMAT_VERSION : ℕ := 1

/-- Modelled from the spec: the serialized model artifact — an opaque,
self-describing blob with the format version embedded (spec section 6). -/
structure PersistedModel (α : Type) where
  formatVersion : ℕ
  params : FittedParams α

deriving instance DecidableEq for PersistedModel

/-- Modelled from the spec: `persist` serializes the fitted estimator,
including the fitted scaling parameters, with the format version embedded;
an unfitted model has nothing to persist. -/
def persistModel {α : Type} (m : SharkGuardModel α) :
    Option (PersistedModel α) :=
  match m.fitted with
  | some p => some ⟨MODEL_FORMAT_VERSION, p⟩
  | none => none

/-- Modelled from the spec: `restore` deserializes a blob, rejecting with a
clear error one whose embedded format version does not match. -/
def restoreModel {α : Type} (b : PersistedModel α) :
    Except String (SharkGuardModel α) :=
  if b.formatVersion = MODEL_FORMAT_VERSION then .ok ⟨some b.params⟩
  else .error "incompatible model file: format version mismatch"

/-! ## The feature extractor (`sharkguard/core.py`, absent from the sources
at hand; modelled from the spec, sections 3 and 4.2) -/

/-- A normalized transaction (spec section 3). -/
structure Transaction where
  timestamp : ℕ
  sender : String
  receiver : String
  value : ℚ
  nonce : ℕ

deriving instance DecidableEq for Transaction

/-- The address on the other side of a transaction from the wallet under
analysis. -/
def counterparty (wallet : String) (t : Transaction) : String :=
  if t.sender = wallet then t.receiver else t.sender

/-- Hour of day (0-23) of a transaction's timestamp (seconds since epoch). -/
def hourOfDay (t : Transaction) : ℕ :=
  t.timestamp / 3600 % 24

/-- Shannon entropy (natural log) of the hour-of-day distribution of a list
of hours. -/
noncomputable def shannonHourEntropy (hours : List ℕ) : ℝ :=
  ∑ h in hours.toFinset,
    -(((hours.count h : ℝ) / hours.length) *
      Real.log ((hours.count h : ℝ) / hours.length))

/-- Modelled from the spec: `extract_wallet_features` of
`sharkguard/core.py`, which is not among the sources at hand (spec section
4.2).  Always returns the full fixed schema; `tx_freq_per_day` is 0 when the
span is zero or there is at most one transaction, `repeated_ratio` is
1 − distinct-counterparties / tx_count (0 when there are no transactions),
and `hour_entropy` uses the sentinel 10 for zero or one transactions.  The
function is total: it never fails, in particular not on the degenerate cases
of zero or one transaction. -/
noncomputable def extract_wallet_features (txs : List Transaction)
    (wallet : String) : FeatureVector ℝ :=
  let n := txs.length
  let ts := txs.map (fun t => t.timestamp)
  let tsMax := ts.foldr max 0
  let tsMin := ts.foldr min tsMax
  let spanSeconds := tsMax - tsMin
  let freq : ℝ := if n ≤ 1 ∨ spanSeconds = 0 then 0
    else (n : ℝ) / ((spanSeconds : ℝ) / 86400)
  let distinct := (txs.map (counterparty wallet)).dedup.length
  let ratio : ℝ := if n = 0 then 0 else 1 - (distinct : ℝ) / (n : ℝ)
  let entropy : ℝ := if n ≤ 1 then 10 else shannonHourEntropy (txs.map hourOfDay)
  FeatureVector.ofVals (n : ℝ) freq ratio entropy

/-! ## The Analyze flow of `app.py` -/

/-- What the model-inference part of the Analyze block displays
(`app.py` lines 164-175): a warning when no model is loaded, the score
metric on success, the caught error text when `predict_score` raised. -/
inductive ScoreSection (α : Type) where
  | warning (msg : String)
  | metric (res : ScoreResult α)
  | predictError (msg : String)

deriving instance DecidableEq for ScoreSection

/-- The model-inference step of the Analyze block (`app.py` lines 164-175):
`sg is None` shows the no-model warning; otherwise `predict_score` is
attempted and a raised error is caught and displayed. -/
def modelInference {α : Type} [LinearOrderedField α]
    (sg : Option (SharkGuardModel α)) (feat : FeatureVector α) :
    ScoreSection α :=
  match sg with
  | none => .warning "No model loaded. Train or upload a model to get a suspicion score."
  | some m =>
    match predict_score m feat with
    | .ok r => .metric r
    | .error e => .predictError ("Model prediction failed: " ++ e)

/-- What one Analyze run renders after feature extraction: the extracted
features, the model-inference section, and the heuristic signals. -/
structure AnalyzeOutput (α : Type) where
  features : FeatureVector α
  scoreSection : ScoreSection α
  heuristics : List String

deriving instance DecidableEq for AnalyzeOutput

/-- The Analyze block of `app.py` from the extracted features on (lines
160-191): the features are shown, the model-inference section runs on the
loaded-model state, then the heuristic signals block runs on the same
features. -/
def analyzeFeatures {α : Type} [LinearOrderedField α]
    (sg : Option (SharkGuardModel α)) (feat : FeatureVector α) :
    AnalyzeOutput α :=
  ⟨feat, modelInference sg feat, heuristicSignals feat⟩

/-- The model-loading step of `app.py` (lines 64-72): when the model file
exists, a successful `load_model` yields the loaded model and a "Loaded
from" status; a raising `load_model` is caught, `sg` stays `None` and the
status reports the failure; when the file does not exist `sg` stays `None`
with status "Not loaded". -/
def loadModelStep {α : Type} (modelFileExists : Bool)
    (loadResult : Except String (SharkGuardModel α)) :
    Option (SharkGuardModel α) × String :=
  if modelFileExists then
    match loadResult with
    | .ok m => (some m, "Loaded from models/isolation_model.joblib")
    | .error e => (none, "Failed to load (" ++ e ++ ")")
  else (none, "Not loaded")

/-! ## Theorems -/

/-- Claim C1, counterexample: the heuristic layer does not produce the flag
texts quoted in the spec's table.  On a feature vector firing only the first
rule the code emits "Very few transactions — new or dormant account", while
the spec's table gives "very few transactions — new/dormant account", which
never appears in the output. -/
theorem heuristic_flag_text_differs_from_spec_table :
    heuristicSignals (FeatureVector.ofVals (0 : ℚ) 0 0 10) =
      ["Very few transactions — new or dormant account"] ∧
    specTableFlags.headD "" = "very few transactions — new/dormant account" ∧
    "very few transactions — new/dormant account" ∉
      heuristicSignals (FeatureVector.ofVals (0 : ℚ) 0 0 10) := by
  have h0 : heuristicSignals (FeatureVector.ofVals (0 : ℚ) 0 0 10) =
      ["Very few transactions — new or dormant account"] := by
    norm_num [heuristicSignals, FeatureVector.ofVals]
  refine ⟨h0, by decide, ?_⟩
  rw [h0]
  decide

/-- Claim C1, amended: for every feature vector the heuristic layer
evaluates exactly the four documented rules, each firing iff its threshold
condition holds (tx_count < 3, tx_freq_per_day > 50, repeated_ratio > 0.6,
hour_entropy < 1.0), in the fixed order of the table, with the flag texts
the code emits (not the spec table's wording); if none fired, the single
"no flags" entry is produced. -/
theorem heuristic_rules_fire_in_table_order {α : Type} [LinearOrderedField α]
    (feat : FeatureVector α) :
    heuristicSignals feat =
      if firedFlags feat = [] then ["No strong heuristic flags detected ✅"]
      else firedFlags feat := by
  by_cases h1 : feat.tx_count.getD 0 < 3 <;>
  by_cases h2 : feat.tx_freq_per_day.getD 0 > 50 <;>
  by_cases h3 : feat.repeated_ratio.getD 0 > 3 / 5 <;>
  by_cases h4 : feat.hour_entropy.getD 10 < 1 <;>
  simp [heuristicSignals, firedFlags, h1, h2, h3, h4]

/-- Claim C2: when none of the four heuristic conditions holds (tx_count ≥
3, tx_freq_per_day ≤ 50, repeated_ratio ≤ 0.6, hour_entropy ≥ 1.0), the
heuristic layer's output is exactly the single "no flags" entry. -/
theorem heuristic_no_rule_fires_single_entry {α : Type} [LinearOrderedField α]
    (feat : FeatureVector α)
    (h1 : 3 ≤ feat.tx_count.getD 0)
    (h2 : feat.tx_freq_per_day.getD 0 ≤ 50)
    (h3 : feat.repeated_ratio.getD 0 ≤ 3 / 5)
    (h4 : 1 ≤ feat.hour_entropy.getD 10) :
    heuristicSignals feat = ["No strong heuristic flags detected ✅"] := by
  have n1 : ¬ feat.tx_count.getD 0 < 3 := not_lt.mpr h1
  have n2 : ¬ feat.tx_freq_per_day.getD 0 > 50 := not_lt.mpr h2
  have n3 : ¬ feat.repeated_ratio.getD 0 > 3 / 5 := not_lt.mpr h3
  have n4 : ¬ feat.hour_entropy.getD 10 < 1 := not_lt.mpr h4
  simp [heuristicSignals, n1, n2, n3, n4]

/-- Witness for C2 at a concrete feature vector on which no rule fires. -/
theorem heuristic_no_rule_fires_witness :
    3 ≤ ((FeatureVector.ofVals (3 : ℚ) 0 0 10).tx_count.getD 0) ∧
    (FeatureVector.ofVals (3 : ℚ) 0 0 10).tx_freq_per_day.getD 0 ≤ 50 ∧
    (FeatureVector.ofVals (3 : ℚ) 0 0 10).repeated_ratio.getD 0 ≤ 3 / 5 ∧
    1 ≤ (FeatureVector.ofVals (3 : ℚ) 0 0 10).hour_entropy.getD 10 ∧
    heuristicSignals (FeatureVector.ofVals (3 : ℚ) 0 0 10) =
      ["No strong heuristic flags detected ✅"] :=
  ⟨by norm_num [FeatureVector.ofVals], by norm_num [FeatureVector.ofVals],
   by norm_num [FeatureVector.ofVals], by norm_num [FeatureVector.ofVals],
   heuristic_no_rule_fires_single_entry _ (by norm_num [FeatureVector.ofVals])
     (by norm_num [FeatureVector.ofVals]) (by norm_num [FeatureVector.ofVals])
     (by norm_num [FeatureVector.ofVals])⟩

/-- Claim C3, counterexample: a final 302 (non-2xx) response whose body is a
well-formed success payload is not treated as a failure — `raise_for_status`
raises only on 4xx/5xx — so `fetch_transactions` returns the payload, not
the empty sequence. -/
theorem fetch_non2xx_counterexample :
    non2xx 302 ∧
    fetch_transactions
      (HttpBehavior.response 302 (some (JsonBody.obj (some "1") (some [0]))) :
        HttpBehavior ℕ) = [0] ∧
    fetch_transactions
      (HttpBehavior.response 302 (some (JsonBody.obj (some "1") (some [0]))) :
        HttpBehavior ℕ) ≠ [] := by
  refine ⟨by norm_num [non2xx], by decide, by decide⟩

/-- Claim C3, amended: for every input and every behaviour of the HTTP layer
`fetch_transactions` is total (never raises to its caller: the catch-all
except clause is part of its definition), and on every failure — network
error, HTTP error status 4xx/5xx (the codes `raise_for_status` raises on),
non-JSON or non-object response body, or API-level error status (auth,
rate-limit, `status` field not `"1"`) — it returns the empty sequence. -/
theorem fetch_failure_returns_empty_list {τ : Type} (h : HttpBehavior τ)
    (hf : FetchFailure h) : fetch_transactions h = [] := by
  cases hf with
  | net => rfl
  | httpError code body h4 h6 =>
      simp [fetch_transactions, fetchAttempt, h4, h6]
  | badJson code =>
      by_cases hc : 400 ≤ code ∧ code < 600 <;>
        simp [fetch_transactions, fetchAttempt, hc]
  | notObj code =>
      by_cases hc : 400 ≤ code ∧ code < 600 <;>
        simp [fetch_transactions, fetchAttempt, hc]
  | apiError code status result hs =>
      by_cases hc : 400 ≤ code ∧ code < 600 <;>
        simp [fetch_transactions, fetchAttempt, hc, hs]

/-- Witness for the amended C3 at the concrete network-error behaviour. -/
theorem fetch_failure_returns_empty_list_witness :
    FetchFailure (HttpBehavior.netError : HttpBehavior ℕ) ∧
    fetch_transactions (HttpBehavior.netError : HttpBehavior ℕ) = [] :=
  ⟨FetchFailure.net, fetch_failure_returns_empty_list _ FetchFailure.net⟩

/-- Claim C4: the heuristic signals of an Analyze run are a pure function of
the feature vector alone — identical whatever the model state (absent,
loaded, or a loaded model whose prediction fails), and identical across
runs. -/
theorem heuristics_independent_of_model {α : Type} [LinearOrderedField α]
    (feat : FeatureVector α) (sg1 sg2 : Option (SharkGuardModel α)) :
    (analyzeFeatures sg1 feat).heuristics = (analyzeFeatures sg2 feat).heuristics ∧
    (analyzeFeatures sg1 feat).heuristics = heuristicSignals feat :=
  ⟨rfl, rfl⟩

/-- Witness for C4: the heuristics agree between the no-model state and a
loaded unfitted model (whose prediction fails) on a concrete vector. -/
theorem heuristics_independent_of_model_witness :
    (analyzeFeatures (none : Option (SharkGuardModel ℚ))
        (FeatureVector.ofVals (0 : ℚ) 0 0 10)).heuristics =
      (analyzeFeatures (some ⟨none⟩) (FeatureVector.ofVals (0 : ℚ) 0 0 10)).heuristics ∧
    (analyzeFeatures (none : Option (SharkGuardModel ℚ))
        (FeatureVector.ofVals (0 : ℚ) 0 0 10)).heuristics =
      heuristicSignals (FeatureVector.ofVals (0 : ℚ) 0 0 10) :=
  heuristics_independent_of_model (FeatureVector.ofVals (0 : ℚ) 0 0 10) none (some ⟨none⟩)

/-- Claim C5: when loading the persisted model raises, the error is caught
and reported in the status, the loaded-model state stays `None`, and the
subsequent Analyze run still produces the extracted features and the
heuristic signals, with the no-model warning in place of a suspicion score;
nothing propagates an exception. -/
theorem load_failure_pipeline_continues {α : Type} [LinearOrderedField α]
    (e : String) (feat : FeatureVector α) :
    loadModelStep true (Except.error e : Except String (SharkGuardModel α)) =
      (none, "Failed to load (" ++ e ++ ")") ∧
    analyzeFeatures
        (loadModelStep true (Except.error e : Except String (SharkGuardModel α))).1
        feat =
      ⟨feat,
       ScoreSection.warning "No model loaded. Train or upload a model to get a suspicion score.",
       heuristicSignals feat⟩ :=
  ⟨rfl, rfl⟩

/-- Claim C6: on the empty transaction set the extractor returns the full
fixed schema with the documented defaults (tx_count = 0, tx_freq_per_day =
0, repeated_ratio = 0, hour_entropy = 10), and on any single transaction it
likewise returns a fully-populated schema (tx_count = 1, tx_freq_per_day =
0, repeated_ratio = 0, hour_entropy = 10): the degenerate cases of zero or
one transaction never fail. -/
theorem extract_empty_returns_schema_defaults (wallet : String) :
    extract_wallet_features [] wallet = FeatureVector.ofVals 0 0 0 10 ∧
    ∀ t : Transaction,
      extract_wallet_features [t] wallet = FeatureVector.ofVals 1 0 0 10 := by
  constructor
  · norm_num [extract_wallet_features, FeatureVector.ofVals]
  · intro t
    norm_num [extract_wallet_features, FeatureVector.ofVals, List.dedup]

/-- Claim C7: the extractor gives a single-transaction set the sentinel high
entropy hour_entropy = 10, and consequently the heuristic layer does not
produce the low-entropy flag on that feature vector. -/
theorem extract_single_tx_sentinel_entropy (t : Transaction) (wallet : String) :
    (extract_wallet_features [t] wallet).hour_entropy = some 10 ∧
    "Low hour entropy — very regular timing" ∉
      heuristicSignals (extract_wallet_features [t] wallet) := by
  have h : extract_wallet_features [t] wallet = FeatureVector.ofVals 1 0 0 10 := by
    norm_num [extract_wallet_features, FeatureVector.ofVals, List.dedup]
  rw [h]
  refine ⟨rfl, ?_⟩
  have h2 : heuristicSignals (FeatureVector.ofVals (1 : ℝ) 0 0 10) =
      ["Very few transactions — new or dormant account"] := by
    norm_num [heuristicSignals, FeatureVector.ofVals]
  rw [h2]
  decide

/-- Claim C8: round-trip — for every fitted model, restoring the persisted
blob yields a model whose `predict_score` result on any feature vector is
identical to the original's. -/
theorem persist_restore_roundtrip_scores_identically {α : Type}
    [LinearOrderedField α] (m : SharkGuardModel α) (p : FittedParams α)
    (hm : m.fitted = some p) (feat : FeatureVector α) :
    ∃ blob m2, persistModel m = some blob ∧ restoreModel blob = .ok m2 ∧
      predict_score m2 feat = predict_score m feat := by
  obtain ⟨f⟩ := m
  simp only at hm
  subst hm
  exact ⟨⟨MODEL_FORMAT_VERSION, p⟩, ⟨some p⟩, rfl, rfl, rfl⟩

/-- Witness for C8 at a concrete fitted model and feature vector. -/
theorem persist_restore_roundtrip_witness :
    ∃ blob m2,
      persistModel (⟨some ⟨[1, 0, 0, 0], [0, 0, 0, 0], [1, 1, 1, 1], 0, 1⟩⟩ :
        SharkGuardModel ℚ) = some blob ∧
      restoreModel blob = .ok m2 ∧
      predict_score m2 (FeatureVector.ofVals (1 : ℚ) 2 3 4) =
        predict_score (⟨some ⟨[1, 0, 0, 0], [0, 0, 0, 0], [1, 1, 1, 1], 0, 1⟩⟩ :
          SharkGuardModel ℚ) (FeatureVector.ofVals (1 : ℚ) 2 3 4) :=
  persist_restore_roundtrip_scores_identically _ _ rfl _

/-- Claim C9: the heuristic layer is total over partial feature mappings —
it is the code's catch-all.  Missing keys take the `feat.get` defaults (0
for tx_count, tx_freq_per_day and repeated_ratio, 10 for hour_entropy), so
evaluating a partial mapping equals evaluating the mapping completed with
those defaults, and the empty mapping yields exactly the single "very few
transactions" flag. -/
theorem heuristic_partial_features_use_defaults {α : Type}
    [LinearOrderedField α] (feat : FeatureVector α) :
    heuristicSignals feat =
      heuristicSignals (FeatureVector.ofVals (feat.tx_count.getD 0)
        (feat.tx_freq_per_day.getD 0) (feat.repeated_ratio.getD 0)
        (feat.hour_entropy.getD 10)) ∧
    heuristicSignals (⟨none, none, none, none⟩ : FeatureVector α) =
      ["Very few transactions — new or dormant account"] := by
  constructor
  · rfl
  · norm_num [heuristicSignals]

/-- Claim C10: whenever the response's `status` field is not the string
`"1"`, or the JSON object lacks a `result` field, `fetch_transactions`
returns the empty sequence even when the HTTP request itself succeeded — so
an address with no transactions is indistinguishable at this interface from
an API-level error, both giving `[]` like a successful empty result does. -/
theorem fetch_api_error_or_missing_result_empty {τ : Type} (code : ℕ)
    (status : Option String) (result : Option (List τ))
    (h : status ≠ some "1" ∨ result = none) :
    fetch_transactions (.response code (some (.obj status result))) = [] ∧
    fetch_transactions
      (HttpBehavior.response 200 (some (JsonBody.obj (some "1") (some ([] : List τ))))) = [] := by
  constructor
  · by_cases hc : 400 ≤ code ∧ code < 600
    · simp [fetch_transactions, fetchAttempt, hc]
    · rcases h with hs | hr
      · simp [fetch_transactions, fetchAttempt, hc, hs]
      · subst hr
        by_cases hs : status = some "1" <;>
          simp [fetch_transactions, fetchAttempt, hc, hs]
  · norm_num [fetch_transactions, fetchAttempt]

/-- Witness for C10 at a concrete API-level error response. -/
theorem fetch_api_error_or_missing_result_witness :
    fetch_transactions
      (HttpBehavior.response 200 (some (JsonBody.obj (some "0") (some [5]))) :
        HttpBehavior ℕ) = [] ∧
    fetch_transactions
      (HttpBehavior.response 200 (some (JsonBody.obj (some "1") (some ([] : List ℕ))))) = [] :=
  fetch_api_error_or_missing_result_empty 200 (some "0") (some [5])
    (Or.inl (by decide))

end SharkGuard
